import Mathlib

/-!
Shallow embedding of the message persistence and status-change notification
subsystem of mockgrid: the message data model, the delivery classifier,
the message-store backends (no-op, filesystem, sqlite), the
store-to-dispatch bridge (StoreWrapper), and the webhook dispatcher
(subscription filter, retry loop, HMAC-SHA256 signing).
-/

/-! ## Data model (app/api/store/message_store.go) -/

/-- Delivery status of a message, mirroring the `MessageStatus` string enum. -/
inductive MessageStatus where
  | processed
  | delivered
  | deferred
  | bounce
  | blocked
  | dropped
deriving DecidableEq, Repr

/-- The string tag of a status, mirroring the Go string constants. -/
def statusStr : MessageStatus → String
  | MessageStatus.processed => "processed"
  | MessageStatus.delivered => "delivered"
  | MessageStatus.deferred => "deferred"
  | MessageStatus.bounce => "bounce"
  | MessageStatus.blocked => "blocked"
  | MessageStatus.dropped => "dropped"

/-- A stored email message, mirroring `store.Message`. -/
structure Message where
  msgID : String
  fromEmail : String
  toEmail : String
  subject : String
  htmlBody : String
  textBody : String
  status : MessageStatus
  smtpResponse : String
  reason : String
  timestamp : Int
  lastEventTime : Int
  opensCount : Int
  clicksCount : Int
deriving DecidableEq, Repr

/-- Query parameters for fetching messages, mirroring `store.GetQuery`.
`status = none` models the Go zero value (empty status string). -/
structure GetQuery where
  id : String
  status : Option MessageStatus
  limit : Int
  offset : Int
deriving DecidableEq, Repr

/-- The query the StoreWrapper issues: `GetQuery{ID: msg.MsgID}`. -/
def GetQuery.byId (id : String) : GetQuery :=
  { id := id, status := none, limit := 0, offset := 0 }

/-- Store-level errors: `store.ErrNotFound`, `fmt.Errorf` invalid-argument and
I/O errors, and `fmt.Errorf("...: %w", err)` wrapping. -/
inductive StoreErr where
  | notFound
  | invalidArgument (msg : String)
  | ioError (msg : String)
  | wrap (msg : String) (inner : StoreErr)
deriving DecidableEq, Repr

/-- `errors.Is(err, store.ErrNotFound)`: unwraps `wrap` chains. -/
def StoreErr.isNotFoundErr : StoreErr → Bool
  | StoreErr.notFound => true
  | StoreErr.wrap _ inner => inner.isNotFoundErr
  | _ => false

/-! ## Delivery classifier (app/api/svc/sendmail/sendmail_svc.go) -/

/-- `strings.Contains` on character lists. -/
def listContains (hay pat : List Char) : Bool :=
  pat.isPrefixOf hay ||
    match hay with
    | [] => false
    | _ :: t => listContains t pat

/-- `strings.Contains(s, pat)`. -/
def strContains (s pat : String) : Bool :=
  listContains s.toList pat.toList

/-- `classifyDeliveryResult`: maps a transport outcome (`none` = nil error,
`some s` = error with text `s`) to a status and detail text. -/
def classifyDeliveryResult (err : Option String) : MessageStatus × String :=
  match err with
  | none => (MessageStatus.delivered, "")
  | some errStr =>
    if strContains errStr ("550") || strContains errStr ("551") ||
       strContains errStr ("552") || strContains errStr ("553") ||
       strContains errStr ("554") then
      (MessageStatus.bounce, errStr)
    else if strContains errStr ("421") || strContains errStr ("450") ||
            strContains errStr ("451") || strContains errStr ("452") then
      (MessageStatus.blocked, errStr)
    else if strContains errStr ("connection") || strContains errStr ("timeout") ||
            strContains errStr ("dial") then
      (MessageStatus.deferred, errStr)
    else
      (MessageStatus.bounce, errStr)

/-- C3: the delivery classifier is a pure function of the transport outcome,
with cases checked in order and first match winning: nil error yields
(delivered, empty detail); else a text containing 550/551/552/553/554 yields
bounce; else one containing 421/450/451/452 yields blocked; else one
containing connection/timeout/dial yields deferred; anything else yields
bounce; in every error case the detail is the original error text. -/
theorem classifyDeliveryResult_cases :
    classifyDeliveryResult none = (MessageStatus.delivered, "") ∧
    (∀ s : String,
      (strContains s ("550") || strContains s ("551") || strContains s ("552") ||
       strContains s ("553") || strContains s ("554")) = true →
      classifyDeliveryResult (some s) = (MessageStatus.bounce, s)) ∧
    (∀ s : String,
      (strContains s ("550") || strContains s ("551") || strContains s ("552") ||
       strContains s ("553") || strContains s ("554")) = false →
      (strContains s ("421") || strContains s ("450") || strContains s ("451") ||
       strContains s ("452")) = true →
      classifyDeliveryResult (some s) = (MessageStatus.blocked, s)) ∧
    (∀ s : String,
      (strContains s ("550") || strContains s ("551") || strContains s ("552") ||
       strContains s ("553") || strContains s ("554")) = false →
      (strContains s ("421") || strContains s ("450") || strContains s ("451") ||
       strContains s ("452")) = false →
      (strContains s ("connection") || strContains s ("timeout") ||
       strContains s ("dial")) = true →
      classifyDeliveryResult (some s) = (MessageStatus.deferred, s)) ∧
    (∀ s : String,
      (strContains s ("550") || strContains s ("551") || strContains s ("552") ||
       strContains s ("553") || strContains s ("554")) = false →
      (strContains s ("421") || strContains s ("450") || strContains s ("451") ||
       strContains s ("452")) = false →
      (strContains s ("connection") || strContains s ("timeout") ||
       strContains s ("dial")) = false →
      classifyDeliveryResult (some s) = (MessageStatus.bounce, s)) := by
  refine ⟨rfl, ?_, ?_, ?_, ?_⟩
  · intro s h1
    simp [classifyDeliveryResult, h1]
  · intro s h1 h2
    simp [classifyDeliveryResult, h1, h2]
  · intro s h1 h2 h3
    simp [classifyDeliveryResult, h1, h2, h3]
  · intro s h1 h2 h3
    simp [classifyDeliveryResult, h1, h2, h3]

/-- Witness for C3: the spec's five concrete classifier examples, obtained by
applying `classifyDeliveryResult_cases` at concrete inputs. -/
theorem classifyDeliveryResult_cases_witness :
    classifyDeliveryResult none = (MessageStatus.delivered, "") ∧
    classifyDeliveryResult (some ("550 mailbox unavailable")) =
      (MessageStatus.bounce, "550 mailbox unavailable") ∧
    classifyDeliveryResult (some ("421 too busy")) =
      (MessageStatus.blocked, "421 too busy") ∧
    classifyDeliveryResult (some ("dial tcp: timeout")) =
      (MessageStatus.deferred, "dial tcp: timeout") ∧
    classifyDeliveryResult (some ("unexpected gremlin")) =
      (MessageStatus.bounce, "unexpected gremlin") :=
  ⟨classifyDeliveryResult_cases.1,
   classifyDeliveryResult_cases.2.1 _ (by decide),
   classifyDeliveryResult_cases.2.2.1 _ (by decide) (by decide),
   classifyDeliveryResult_cases.2.2.2.1 _ (by decide) (by decide) (by decide),
   classifyDeliveryResult_cases.2.2.2.2 _ (by decide) (by decide) (by decide)⟩

/-! ## Store-to-dispatch bridge (app/api/store/webhook_store_wrapper.go) -/

/-- The `store.MessageStore` interface over an explicit backend state. -/
structure MessageStore (sigma : Type) where
  get : sigma → GetQuery → Except StoreErr (List Message)
  save : sigma → Message → Except StoreErr sigma

/-- The arguments of one `EventDispatcher.DispatchMessageEvent` call. -/
structure DispatchEvent where
  msgID : String
  email : String
  fromAddr : String
  subject : String
  status : String
  reason : String
deriving DecidableEq, Repr

/-- The event the StoreWrapper dispatches for `msg`:
`DispatchMessageEvent(msg.MsgID, msg.ToEmail, msg.FromEmail, msg.Subject,
string(msg.Status), msg.Reason)`. -/
def dispatchEventOf (msg : Message) : DispatchEvent :=
  { msgID := msg.msgID
    email := msg.toEmail
    fromAddr := msg.fromEmail
    subject := msg.subject
    status := statusStr msg.status
    reason := msg.reason }

/-- Second half of `StoreWrapper.SaveMSG`, after the existence check produced
`oldMsgs`: save to the wrapped store, then dispatch for a new message or a
status change. -/
def storeWrapperAfterGet {sigma : Type} (B : MessageStore sigma) (st : sigma)
    (msg : Message) (oldMsgs : List Message) :
    Except StoreErr sigma × List DispatchEvent :=
  let wasNew := oldMsgs.isEmpty
  match B.save st msg with
  | Except.error e => (Except.error e, [])
  | Except.ok st' =>
    if wasNew || (match oldMsgs with
                  | [] => false
                  | old :: _ => decide (old.status ≠ msg.status)) then
      (Except.ok st', [dispatchEventOf msg])
    else
      (Except.ok st', [])

/-- `StoreWrapper.SaveMSG`: reads the pre-existing record for `msg.MsgID`
(treating `ErrNotFound` as absence and propagating any other get error
wrapped), delegates the save, and dispatches exactly when the message was new
or its status changed. The second component lists the dispatched events. -/
def storeWrapperSave {sigma : Type} (B : MessageStore sigma) (st : sigma)
    (msg : Message) : Except StoreErr sigma × List DispatchEvent :=
  match B.get st (GetQuery.byId msg.msgID) with
  | Except.error e =>
    if e.isNotFoundErr then storeWrapperAfterGet B st msg []
    else (Except.error (StoreErr.wrap ("fetch existing message") e), [])
  | Except.ok oldMsgs => storeWrapperAfterGet B st msg oldMsgs

/-- C1: saving through the StoreWrapper triggers exactly one dispatch when no
record with the message's id pre-exists (get returns an empty list or
ErrNotFound), zero dispatches when the pre-existing record's status equals the
new status, and exactly one dispatch carrying the new status when the statuses
differ. -/
theorem storeWrapper_dispatch_on_status_transition {sigma : Type}
    (B : MessageStore sigma) (st st' : sigma) (msg : Message)
    (hsave : B.save st msg = Except.ok st') :
    ((B.get st (GetQuery.byId msg.msgID) = Except.ok [] ∨
      B.get st (GetQuery.byId msg.msgID) = Except.error StoreErr.notFound) →
      storeWrapperSave B st msg = (Except.ok st', [dispatchEventOf msg])) ∧
    (∀ old : Message, B.get st (GetQuery.byId msg.msgID) = Except.ok [old] →
      storeWrapperSave B st msg =
        (Except.ok st',
         if old.status = msg.status then [] else [dispatchEventOf msg])) := by
  constructor
  · intro hget
    rcases hget with hget | hget <;>
      simp [storeWrapperSave, hget, storeWrapperAfterGet, hsave, StoreErr.isNotFoundErr]
  · intro old hget
    by_cases hst : old.status = msg.status <;>
      simp [storeWrapperSave, hget, storeWrapperAfterGet, hsave, hst]

/-- C7: if the wrapped store's save fails, the StoreWrapper's save returns
that very error and dispatches nothing (the existence check having succeeded
or reported ErrNotFound). -/
theorem storeWrapper_propagates_save_error {sigma : Type}
    (B : MessageStore sigma) (st : sigma) (msg : Message) (e : StoreErr)
    (hget : (∃ l : List Message,
               B.get st (GetQuery.byId msg.msgID) = Except.ok l) ∨
            (∃ ge : StoreErr,
               B.get st (GetQuery.byId msg.msgID) = Except.error ge ∧
               ge.isNotFoundErr = true))
    (hsave : B.save st msg = Except.error e) :
    storeWrapperSave B st msg = (Except.error e, []) := by
  rcases hget with ⟨l, hget⟩ | ⟨ge, hget, hnf⟩
  · simp [storeWrapperSave, hget, storeWrapperAfterGet, hsave]
  · simp [storeWrapperSave, hget, storeWrapperAfterGet, hsave, hnf]

/-! ## Filesystem backend (app/api/store/filesystem/filesystem.go) -/

/-- Split a character list on the path separator. -/
def splitSlash : List Char → List (List Char)
  | [] => [[]]
  | c :: t =>
    match splitSlash t with
    | [] => [[]]
    | g :: gs => if c = '/' then [] :: g :: gs else (c :: g) :: gs

/-- `filepath.Base`: last non-empty path element after stripping slashes;
"." for the empty path, "/" for an all-slash path. -/
def pathBase (s : String) : String :=
  if s = "" then "."
  else
    match ((splitSlash s.toList).filter (fun p => p ≠ [])).getLast? with
    | some p => String.mk p
    | none => "/"

/-- Filesystem store state: the files under the store root, keyed by the
sanitized id (the `<key>.json` file holding the serialized message). -/
def FsState : Type := List (String × Message)

/-- Write-or-overwrite the file for key `k` (`os.WriteFile`). -/
def fsUpsert (st : FsState) (k : String) (m : Message) : FsState :=
  match st with
  | [] => [(k, m)]
  | e :: t => if e.1 == k then (k, m) :: t else e :: fsUpsert t k m

/-- `Store.filename` lookup: the message stored under `<Base(id)>.json`. -/
def fsLookup (st : FsState) (id : String) : Option Message :=
  (st.find? (fun e => e.1 == pathBase id)).map (fun e => e.2)

/-- Filesystem `Store.SaveMSG`: rejects an empty id, otherwise serializes the
message to the file named by its sanitized id. -/
def fsSave (st : FsState) (msg : Message) : Except StoreErr FsState :=
  if msg.msgID = "" then
    Except.error (StoreErr.invalidArgument ("message ID is required"))
  else
    Except.ok (fsUpsert st (pathBase msg.msgID) msg)

/-- Filesystem `Store.getByID`: reads the file for `id`, `ErrNotFound` when
it does not exist. -/
def fsGetByID (st : FsState) (id : String) : Except StoreErr (List Message) :=
  match fsLookup st id with
  | none => Except.error StoreErr.notFound
  | some m => Except.ok [m]

/-- Filesystem `Store.list` loop body: skip non-matching statuses, then skip
`offset` matches, then collect until `limit` is reached. -/
def fsListLoop (entries : List Message) (qstatus : Option MessageStatus)
    (qoffset limit : Int) (skipped : Int) (acc : List Message) : List Message :=
  match entries with
  | [] => acc.reverse
  | m :: rest =>
    if (match qstatus with
        | some s => decide (m.status ≠ s)
        | none => false) then
      fsListLoop rest qstatus qoffset limit skipped acc
    else if skipped < qoffset then
      fsListLoop rest qstatus qoffset limit (skipped + 1) acc
    else
      let acc' := m :: acc
      if limit ≤ (acc'.length : Int) then acc'.reverse
      else fsListLoop rest qstatus qoffset limit skipped acc'

/-- Filesystem `Store.list`: directory scan with status filter, offset and
limit (defaulting to 100 when the limit is zero). -/
def fsList (st : FsState) (q : GetQuery) : List Message :=
  let limit := if q.limit = 0 then 100 else q.limit
  fsListLoop (st.map (fun e => e.2)) q.status q.offset limit 0 []

/-- Filesystem `Store.GetMSG`: by id when `query.ID` is set, else list. -/
def fsGet (st : FsState) (q : GetQuery) : Except StoreErr (List Message) :=
  if q.id ≠ "" then fsGetByID st q.id else Except.ok (fsList st q)

/-- The filesystem backend as a `MessageStore`. -/
def fsStore : MessageStore FsState :=
  { get := fsGet, save := fsSave }

/-! ## No-op backend (app/api/store/noop/noop.go) -/

/-- No-op `Store.SaveMSG`: discards the message and returns nil. -/
def noopSaveMSG (_ : Message) : Except StoreErr Unit :=
  Except.ok ()

/-- No-op `Store.GetMSG`: always returns an empty slice. -/
def noopGetMSG (_ : GetQuery) : Except StoreErr (List Message) :=
  Except.ok []

/-- The no-op backend as a `MessageStore` (its state carries no data). -/
def noopStore : MessageStore Unit :=
  { get := fun _ q => noopGetMSG q, save := fun _ m => (noopSaveMSG m).map (fun _ => ()) }

/-! ## SQLite backend (message side; unnamed sqlite source files) -/

/-- Lookup by primary key `msg_id`. -/
def sqliteLookup (st : List Message) (id : String) : Option Message :=
  st.find? (fun m => m.msgID == id)

/-- The `ON CONFLICT(msg_id) DO UPDATE SET` clause: only status,
smtp_response, reason, last_event_time, opens_count and clicks_count are
taken from the excluded (new) row; every other column keeps its old value. -/
def sqliteSaveMerge (old msg : Message) : Message :=
  { old with
    status := msg.status
    smtpResponse := msg.smtpResponse
    reason := msg.reason
    lastEventTime := msg.lastEventTime
    opensCount := msg.opensCount
    clicksCount := msg.clicksCount }

/-- SQLite `Store.SaveMSG`: rejects an empty id; inserts a fresh row, or on a
`msg_id` conflict updates only the columns in the upsert's SET list. -/
def sqliteSave (st : List Message) (msg : Message) :
    Except StoreErr (List Message) :=
  if msg.msgID = "" then
    Except.error (StoreErr.invalidArgument ("message ID is required"))
  else
    match sqliteLookup st msg.msgID with
    | none => Except.ok (st ++ [msg])
    | some _ =>
      Except.ok (st.map (fun old =>
        if old.msgID == msg.msgID then sqliteSaveMerge old msg else old))

/-- SQLite `Store.getMSGByID`: the row with `msg_id = id`, or `ErrNotFound`. -/
def sqliteGetByID (st : List Message) (id : String) :
    Except StoreErr (List Message) :=
  match sqliteLookup st id with
  | none => Except.error StoreErr.notFound
  | some m => Except.ok [m]

/-! ## Concrete records used by witnesses and counterexamples -/

/-- A concrete message with id "m1" and status `processed`. -/
def msgA : Message :=
  { msgID := "m1"
    fromEmail := "sender@example.com"
    toEmail := "rcpt@example.com"
    subject := "hello"
    htmlBody := "<p>hi</p>"
    textBody := "hi"
    status := MessageStatus.processed
    smtpResponse := ""
    reason := ""
    timestamp := 1700000000
    lastEventTime := 1700000000
    opensCount := 0
    clicksCount := 0 }

/-- `msgA` re-saved with status `delivered`. -/
def msgA2 : Message :=
  { msgA with status := MessageStatus.delivered, lastEventTime := 1700000001 }

/-- A message whose id is the empty string. -/
def msgEmptyID : Message :=
  { msgA with msgID := "" }

/-- Witness for C1: over the filesystem backend, saving "m1" into an empty
store dispatches once; re-saving it unchanged dispatches zero times;
re-saving with status `delivered` dispatches once with the new status. -/
theorem storeWrapper_dispatch_on_status_transition_witness :
    storeWrapperSave fsStore [] msgA =
      (Except.ok [("m1", msgA)], [dispatchEventOf msgA]) ∧
    storeWrapperSave fsStore [("m1", msgA)] msgA =
      (Except.ok [("m1", msgA)], []) ∧
    storeWrapperSave fsStore [("m1", msgA)] msgA2 =
      (Except.ok [("m1", msgA2)], [dispatchEventOf msgA2]) := by
  refine ⟨?_, ?_, ?_⟩
  · exact (storeWrapper_dispatch_on_status_transition fsStore [] [("m1", msgA)]
      msgA rfl).1 (Or.inr rfl)
  · have h := (storeWrapper_dispatch_on_status_transition fsStore [("m1", msgA)]
      [("m1", msgA)] msgA rfl).2 msgA rfl
    simpa using h
  · have h := (storeWrapper_dispatch_on_status_transition fsStore [("m1", msgA)]
      [("m1", msgA2)] msgA2 rfl).2 msgA rfl
    have hne : msgA.status ≠ msgA2.status := by decide
    simpa [hne] using h

/-- Witness for C7: over the filesystem backend, saving a message with an
empty id fails in the wrapped store; the StoreWrapper returns that error and
dispatches nothing. -/
theorem storeWrapper_propagates_save_error_witness :
    storeWrapperSave fsStore [] msgEmptyID =
      (Except.error (StoreErr.invalidArgument ("message ID is required")), []) :=
  storeWrapper_propagates_save_error fsStore [] msgEmptyID
    (StoreErr.invalidArgument ("message ID is required"))
    (Or.inl ⟨[], rfl⟩) rfl

/-- C10: when the StoreWrapper wraps the no-op backend, its get always
returns an empty list, so every save is classified as new: every save
succeeds and triggers exactly one dispatch, even a re-save of the same id
with the same status — the at-most-once-per-status-change behavior does not
hold over the no-op backend. -/
theorem noopStore_wrapper_always_dispatches (msg : Message) :
    noopStore.get () (GetQuery.byId msg.msgID) = Except.ok [] ∧
    storeWrapperSave noopStore () msg = (Except.ok (), [dispatchEventOf msg]) := by
  constructor
  · rfl
  · simp [storeWrapperSave, noopStore, noopGetMSG, noopSaveMSG,
      storeWrapperAfterGet, Except.map]

/-! ## Webhook dispatcher (app/api/svc/webhook/webhook_router.go) -/

/-- A webhook subscription, mirroring `store.WebhookConfig`. -/
structure WebhookConfig where
  id : String
  url : String
  enabled : Bool
  events : List String
  secret : String
  createdAt : Int
  updatedAt : Int
deriving DecidableEq, Repr

/-- `isSubscribed`: linear scan of the config's events for an exact string
match against the event type. -/
def isSubscribed (hook : WebhookConfig) (eventType : String) : Bool :=
  hook.events.any (fun e => e == eventType)

/-- `Dispatcher.dispatchAsync`, reduced to which configs receive a delivery
attempt: on a listing error or an empty list no config is attempted;
otherwise exactly the subscribed configs are passed to `sendWithRetry`, in
order. -/
def dispatchTargets (listResult : Except StoreErr (List WebhookConfig))
    (status : String) : List WebhookConfig :=
  match listResult with
  | Except.error _ => []
  | Except.ok webhooks => webhooks.filter (fun h => isSubscribed h status)

/-- C4: for every dispatched status string and every config in the enabled
list, the dispatcher attempts delivery to that config if and only if the
config's events set contains the status under exact string comparison;
a config not subscribed to the status receives no attempt. -/
theorem dispatchTargets_iff_subscribed (webhooks : List WebhookConfig)
    (status : String) (cfg : WebhookConfig) :
    cfg ∈ dispatchTargets (Except.ok webhooks) status ↔
      cfg ∈ webhooks ∧ status ∈ cfg.events := by
  show cfg ∈ webhooks.filter (fun h => isSubscribed h status) ↔ _
  rw [List.mem_filter]
  unfold isSubscribed
  constructor
  · rintro ⟨hmem, hsub⟩
    refine ⟨hmem, ?_⟩
    rcases List.any_eq_true.mp hsub with ⟨e, he, heq⟩
    rwa [show e = status from by simpa using heq] at he
  · rintro ⟨hmem, hev⟩
    exact ⟨hmem, List.any_eq_true.mpr ⟨status, hev, by simp⟩⟩

/-- The outcome of one `Dispatcher.send` call: a transport error, or an HTTP
response with the given status code. -/
inductive SendOutcome where
  | transportError
  | httpStatus (code : Nat)
deriving DecidableEq, Repr

/-- `send` returns nil exactly for an HTTP response in [200, 300). -/
def sendOk : SendOutcome → Bool
  | SendOutcome.transportError => false
  | SendOutcome.httpStatus code => decide (200 ≤ code) && decide (code < 300)

/-- `maxRetries` in `Dispatcher.sendWithRetry`. -/
def maxRetries : Nat := 3

/-- The retry loop of `sendWithRetry`: `attempt` is the loop counter,
`backoff` the current sleep duration in seconds, `remaining` the iterations
the `attempt < maxRetries` condition still admits. Returns the number of
attempts made and the list of sleeps performed, in order. -/
def sendWithRetryAux (resp : Nat → SendOutcome) (attempt backoff : Nat) :
    Nat → Nat × List Nat
  | 0 => (attempt, [])
  | remaining + 1 =>
    if sendOk (resp attempt) then (attempt + 1, [])
    else if attempt < maxRetries - 1 then
      let res := sendWithRetryAux resp (attempt + 1) (backoff * 2) remaining
      (res.1, backoff :: res.2)
    else (attempt + 1, [])

/-- `Dispatcher.sendWithRetry`: up to `maxRetries` attempts, backoff starting
at one second and doubling after each sleep. `resp n` is the endpoint's
response to attempt number `n` (counting from zero). -/
def sendWithRetry (resp : Nat → SendOutcome) : Nat × List Nat :=
  sendWithRetryAux resp 0 1 maxRetries

/-- C5: the dispatcher makes at most 3 delivery attempts and sleeps exactly
1 second after the first failed attempt and 2 seconds after the second, with
no sleep after the final attempt; it stops at the first attempt whose HTTP
status lies in [200,300); against an endpoint that always responds outside
[200,300) (or with transport errors) it makes exactly 3 attempts, then stops. -/
theorem sendWithRetry_bounds (resp : Nat → SendOutcome) :
    (sendWithRetry resp).1 ≤ 3 ∧
    (sendWithRetry resp).2 = [1, 2].take ((sendWithRetry resp).1 - 1) ∧
    (∀ i : Nat, i < 3 → sendOk (resp i) = true →
      (∀ j : Nat, j < i → sendOk (resp j) = false) →
      (sendWithRetry resp).1 = i + 1) ∧
    ((∀ j : Nat, j < 3 → sendOk (resp j) = false) →
      (sendWithRetry resp).1 = 3 ∧ (sendWithRetry resp).2 = [1, 2]) := by
  have hcf : sendWithRetry resp =
      if sendOk (resp 0) then (1, ([] : List Nat))
      else if sendOk (resp 1) then (2, [1])
      else (3, [1, 2]) := by
    rcases h0 : sendOk (resp 0) <;> rcases h1 : sendOk (resp 1) <;>
      rcases h2 : sendOk (resp 2) <;>
      simp [sendWithRetry, sendWithRetryAux, maxRetries, h0, h1, h2]
  refine ⟨?_, ?_, ?_, ?_⟩
  · rcases h0 : sendOk (resp 0) <;> rcases h1 : sendOk (resp 1) <;>
      simp [hcf, h0, h1]
  · rcases h0 : sendOk (resp 0) <;> rcases h1 : sendOk (resp 1) <;>
      simp [hcf, h0, h1]
  · intro i hi hsucc hfirst
    interval_cases i
    · simp [hcf, hsucc]
    · have f0 : sendOk (resp 0) = false := hfirst 0 (by norm_num)
      simp [hcf, f0, hsucc]
    · have f0 : sendOk (resp 0) = false := hfirst 0 (by norm_num)
      have f1 : sendOk (resp 1) = false := hfirst 1 (by norm_num)
      simp [hcf, f0, f1]
  · intro hall
    have f0 : sendOk (resp 0) = false := hall 0 (by norm_num)
    have f1 : sendOk (resp 1) = false := hall 1 (by norm_num)
    simp [hcf, f0, f1]

/-- Witness for C5: all four parts of `sendWithRetry_bounds` applied to an
endpoint that always answers 500 and one that succeeds on the second attempt. -/
theorem sendWithRetry_bounds_witness :
    (sendWithRetry (fun _ => SendOutcome.httpStatus 500)).1 = 3 ∧
    (sendWithRetry (fun _ => SendOutcome.httpStatus 500)).2 = [1, 2] ∧
    (sendWithRetry (fun n => if n = 1 then SendOutcome.httpStatus 204
                             else SendOutcome.httpStatus 500)).1 = 2 := by
  refine ⟨((sendWithRetry_bounds _).2.2.2 ?_).1, ((sendWithRetry_bounds _).2.2.2 ?_).2, ?_⟩
  · intro j _; rfl
  · intro j _; rfl
  · exact (sendWithRetry_bounds _).2.2.1 1 (by norm_num) (by decide)
      (by intro j hj; interval_cases j; rfl)

/-! ## Upsert field semantics (C2) -/

/-- After an upsert, the store's own key lookup finds the new record. -/
theorem fsUpsert_find (st : FsState) (k : String) (m : Message) :
    (fsUpsert st k m).find? (fun e => e.1 == k) = some (k, m) := by
  induction st with
  | nil => simp [fsUpsert, List.find?]
  | cons e t ih =>
    rcases he : e.1 == k with _ | _
    · simp [fsUpsert, he, List.find?, ih]
    · simp [fsUpsert, he, List.find?]

/-- Updating the conflicting row preserves the primary key, so the lookup
after an UPDATE-on-conflict finds exactly the merged row. -/
theorem sqliteUpdate_find (st : List Message) (id : String) (msg old : Message)
    (h : st.find? (fun m => m.msgID == id) = some old) :
    (st.map (fun o => if o.msgID == id then sqliteSaveMerge o msg else o)).find?
      (fun m => m.msgID == id) = some (sqliteSaveMerge old msg) := by
  induction st with
  | nil => simp [List.find?] at h
  | cons e t ih =>
    rcases he : e.msgID == id with _ | _
    · rw [List.find?_cons_of_neg _ (by simp [he])] at h
      simpa [List.map_cons, List.find?, he] using ih h
    · rw [List.find?_cons_of_pos (p := fun m => m.msgID == id) t he] at h
      have hold : old = e := by
        injection h with h
        exact h.symm
      subst hold
      simp [List.map_cons, List.find?, he,
        show ((sqliteSaveMerge old msg).msgID == id) = true from he]

/-- A message absent from the table stays findable nowhere else: `find?` over
an append when the left part has no match. -/
theorem find?_append_none {α : Type} (l1 l2 : List α) (p : α → Bool)
    (h : l1.find? p = none) : (l1 ++ l2).find? p = l2.find? p := by
  induction l1 with
  | nil => rfl
  | cons e t ih =>
    rcases he : p e with _ | _
    · rw [List.find?_cons_of_neg _ (by simp [he])] at h
      rw [List.cons_append, List.find?_cons_of_neg _ (by simp [he])]
      exact ih h
    · rw [List.find?_cons_of_pos _ he] at h
      exact absurd h (by simp)

/-- Amended C2: per-field upsert semantics. The filesystem backend fully
overwrites: after a save, get by id returns exactly the saved message. The
relational backend fully writes a new id, but on a pre-existing id its
ON CONFLICT clause overwrites only status, transportResponse, reason,
lastEventAt, opensCount and clicksCount, leaving from, to, subject, htmlBody,
textBody (and the created timestamp) at the pre-existing record's values. -/
theorem save_upsert_field_semantics :
    (∀ (st : FsState) (msg : Message), msg.msgID ≠ "" →
      ∃ st', fsSave st msg = Except.ok st' ∧
        fsGetByID st' msg.msgID = Except.ok [msg]) ∧
    (∀ (st : List Message) (msg : Message), msg.msgID ≠ "" →
      sqliteLookup st msg.msgID = none →
      ∃ st', sqliteSave st msg = Except.ok st' ∧
        sqliteGetByID st' msg.msgID = Except.ok [msg]) ∧
    (∀ (st : List Message) (msg old : Message), msg.msgID ≠ "" →
      sqliteLookup st msg.msgID = some old →
      ∃ st', sqliteSave st msg = Except.ok st' ∧
        sqliteGetByID st' msg.msgID = Except.ok [sqliteSaveMerge old msg]) ∧
    (∀ old msg : Message,
      (sqliteSaveMerge old msg).status = msg.status ∧
      (sqliteSaveMerge old msg).smtpResponse = msg.smtpResponse ∧
      (sqliteSaveMerge old msg).reason = msg.reason ∧
      (sqliteSaveMerge old msg).lastEventTime = msg.lastEventTime ∧
      (sqliteSaveMerge old msg).opensCount = msg.opensCount ∧
      (sqliteSaveMerge old msg).clicksCount = msg.clicksCount ∧
      (sqliteSaveMerge old msg).msgID = old.msgID ∧
      (sqliteSaveMerge old msg).fromEmail = old.fromEmail ∧
      (sqliteSaveMerge old msg).toEmail = old.toEmail ∧
      (sqliteSaveMerge old msg).subject = old.subject ∧
      (sqliteSaveMerge old msg).htmlBody = old.htmlBody ∧
      (sqliteSaveMerge old msg).textBody = old.textBody ∧
      (sqliteSaveMerge old msg).timestamp = old.timestamp) := by
  refine ⟨?_, ?_, ?_, ?_⟩
  · intro st msg h
    refine ⟨fsUpsert st (pathBase msg.msgID) msg, by simp [fsSave, h], ?_⟩
    simp [fsGetByID, fsLookup, fsUpsert_find]
  · intro st msg h hnone
    refine ⟨st ++ [msg], by simp [sqliteSave, h, hnone], ?_⟩
    unfold sqliteGetByID sqliteLookup
    rw [find?_append_none _ _ _ hnone]
    simp [List.find?]
  · intro st msg old h hsome
    refine ⟨st.map (fun o => if o.msgID == msg.msgID then sqliteSaveMerge o msg
      else o), ?_, ?_⟩
    · unfold sqliteSave
      rw [if_neg h, hsome]
    · unfold sqliteGetByID sqliteLookup
      rw [sqliteUpdate_find st msg.msgID msg old hsome]
  · intro old msg
    exact ⟨rfl, rfl, rfl, rfl, rfl, rfl, rfl, rfl, rfl, rfl, rfl, rfl, rfl⟩

/-- `msgA`'s id re-saved with new addresses, subject, bodies and status. -/
def msgB : Message :=
  { msgID := "m1"
    fromEmail := "new-sender@example.com"
    toEmail := "new-rcpt@example.com"
    subject := "updated subject"
    htmlBody := "<p>new</p>"
    textBody := "new"
    status := MessageStatus.delivered
    smtpResponse := "250 OK"
    reason := ""
    timestamp := 1700000002
    lastEventTime := 1700000002
    opensCount := 1
    clicksCount := 0 }

/-- Counterexample to C2 as stated: on the relational backend, saving `msgB`
over the pre-existing record `msgA` (same id "m1") succeeds, but the record
returned by get keeps the old subject and from address — the save did not
overwrite all mutable fields. -/
theorem sqlite_save_not_full_overwrite :
    sqliteSave [msgA] msgB = Except.ok [sqliteSaveMerge msgA msgB] ∧
    sqliteGetByID [sqliteSaveMerge msgA msgB] ("m1") =
      Except.ok [sqliteSaveMerge msgA msgB] ∧
    (sqliteSaveMerge msgA msgB).subject ≠ msgB.subject ∧
    (sqliteSaveMerge msgA msgB).fromEmail ≠ msgB.fromEmail :=
  ⟨rfl, rfl, by decide, by decide⟩

/-- Witness for the amended C2: the three cases of
`save_upsert_field_semantics` at concrete inputs — a filesystem overwrite of
"m1" and a relational insert and conflict-update of "m1". -/
theorem save_upsert_field_semantics_witness :
    (∃ st', fsSave [("m1", msgA)] msgB = Except.ok st' ∧
      fsGetByID st' ("m1") = Except.ok [msgB]) ∧
    (∃ st', sqliteSave [] msgA = Except.ok st' ∧
      sqliteGetByID st' ("m1") = Except.ok [msgA]) ∧
    (∃ st', sqliteSave [msgA] msgB = Except.ok st' ∧
      sqliteGetByID st' ("m1") = Except.ok [sqliteSaveMerge msgA msgB]) :=
  ⟨save_upsert_field_semantics.1 [("m1", msgA)] msgB (by decide),
   save_upsert_field_semantics.2.1 [] msgA (by decide) rfl,
   save_upsert_field_semantics.2.2.1 [msgA] msgB msgA (by decide) rfl⟩

/-! ## Empty-id save contract (C8) -/

/-- Counterexample to C8 as stated: the no-op backend's SaveMSG accepts a
message with an empty id and returns nil, the behavior its own tests pin. -/
theorem noop_save_empty_id_succeeds :
    msgEmptyID.msgID = "" ∧ noopSaveMSG msgEmptyID = Except.ok () :=
  ⟨rfl, rfl⟩

/-- Amended C8: the filesystem and relational backends reject an empty id
with an invalid-argument error ("message ID is required"), while the no-op
backend accepts every message — including one with an empty id — and
returns success. -/
theorem save_empty_id_per_backend :
    (∀ (st : FsState) (msg : Message), msg.msgID = "" →
      fsSave st msg =
        Except.error (StoreErr.invalidArgument ("message ID is required"))) ∧
    (∀ (st : List Message) (msg : Message), msg.msgID = "" →
      sqliteSave st msg =
        Except.error (StoreErr.invalidArgument ("message ID is required"))) ∧
    (∀ msg : Message, noopSaveMSG msg = Except.ok ()) := by
  refine ⟨?_, ?_, fun _ => rfl⟩
  · intro st msg h
    simp [fsSave, h]
  · intro st msg h
    simp [sqliteSave, h]

/-- Witness for the amended C8: the three backends applied to the concrete
empty-id message through `save_empty_id_per_backend`. -/
theorem save_empty_id_per_backend_witness :
    fsSave [] msgEmptyID =
      Except.error (StoreErr.invalidArgument ("message ID is required")) ∧
    sqliteSave [] msgEmptyID =
      Except.error (StoreErr.invalidArgument ("message ID is required")) ∧
    noopSaveMSG msgEmptyID = Except.ok () :=
  ⟨save_empty_id_per_backend.1 [] msgEmptyID rfl,
   save_empty_id_per_backend.2.1 [] msgEmptyID rfl,
   save_empty_id_per_backend.2.2 msgEmptyID⟩

/-! ## Webhook registry update/delete on an absent id (C9) -/

/-- Filesystem webhook registry state: the files under `webhooks/`, keyed by
the sanitized id. -/
def FsWebhookState : Type := List (String × WebhookConfig)

/-- Filesystem `Store.UpdateWebhook`: stat the file, `ErrNotFound` if
missing, otherwise rewrite it with `updatedAt` set to the current time. -/
def fsUpdateWebhook (st : FsWebhookState) (hook : WebhookConfig) (now : Int) :
    Except StoreErr FsWebhookState :=
  let file := pathBase hook.id
  match st.find? (fun e => e.1 == file) with
  | none => Except.error StoreErr.notFound
  | some _ =>
    Except.ok (st.map (fun e =>
      if e.1 == file then (file, { hook with updatedAt := now }) else e))

/-- Filesystem `Store.DeleteWebhook`: `os.Remove`, mapping not-exists to
`ErrNotFound`. -/
def fsDeleteWebhook (st : FsWebhookState) (id : String) :
    Except StoreErr FsWebhookState :=
  let file := pathBase id
  match st.find? (fun e => e.1 == file) with
  | none => Except.error StoreErr.notFound
  | some _ => Except.ok (st.filter (fun e => !(e.1 == file)))

/-- The SQL `UPDATE webhooks SET url, events, enabled, secret, updated_at
WHERE id = ?` applied to one row. -/
def sqliteWebhookMerge (row hook : WebhookConfig) : WebhookConfig :=
  { row with
    url := hook.url
    events := hook.events
    enabled := hook.enabled
    secret := hook.secret
    updatedAt := hook.updatedAt }

/-- SQLite `Store.UpdateWebhook`: executes the UPDATE and returns the
execution error only — a statement matching zero rows is not an error. -/
def sqliteUpdateWebhook (st : List WebhookConfig) (hook : WebhookConfig) :
    Except StoreErr (List WebhookConfig) :=
  Except.ok (st.map (fun w =>
    if w.id == hook.id then sqliteWebhookMerge w hook else w))

/-- SQLite `Store.DeleteWebhook`: executes the DELETE and returns the
execution error only — deleting zero rows is not an error. -/
def sqliteDeleteWebhook (st : List WebhookConfig) (id : String) :
    Except StoreErr (List WebhookConfig) :=
  Except.ok (st.filter (fun w => !(w.id == id)))

/-- No-op `Store.UpdateWebhook`: always `ErrNotFound`. -/
def noopUpdateWebhook (_ : WebhookConfig) : Except StoreErr Unit :=
  Except.error StoreErr.notFound

/-- No-op `Store.DeleteWebhook`: always `ErrNotFound`. -/
def noopDeleteWebhook (_ : String) : Except StoreErr Unit :=
  Except.error StoreErr.notFound

/-- A concrete webhook config subscribed to bounce events. -/
def hookA : WebhookConfig :=
  { id := "wh1"
    url := "http://localhost:9100/cb"
    enabled := true
    events := ["bounce"]
    secret := ""
    createdAt := 1700000000
    updatedAt := 1700000000 }

/-- Counterexample to C9 as stated: on the relational registry, updating and
deleting the absent id "wh1" in an empty webhooks table both return success,
not NotFound. -/
theorem sqlite_webhook_absent_id_succeeds :
    sqliteUpdateWebhook [] hookA = Except.ok [] ∧
    sqliteDeleteWebhook [] ("wh1") = Except.ok [] :=
  ⟨rfl, rfl⟩

/-- Amended C9: the filesystem and no-op registries fail with NotFound when
update or delete targets an absent id; the relational registry's update and
delete silently succeed, leaving the table unchanged, because they never
inspect the number of affected rows. -/
theorem webhook_absent_id_per_backend :
    (∀ (st : FsWebhookState) (hook : WebhookConfig) (now : Int),
      st.find? (fun e => e.1 == pathBase hook.id) = none →
      fsUpdateWebhook st hook now = Except.error StoreErr.notFound) ∧
    (∀ (st : FsWebhookState) (id : String),
      st.find? (fun e => e.1 == pathBase id) = none →
      fsDeleteWebhook st id = Except.error StoreErr.notFound) ∧
    (∀ hook : WebhookConfig,
      noopUpdateWebhook hook = Except.error StoreErr.notFound) ∧
    (∀ id : String, noopDeleteWebhook id = Except.error StoreErr.notFound) ∧
    (∀ (st : List WebhookConfig) (hook : WebhookConfig),
      (∀ w ∈ st, w.id ≠ hook.id) →
      sqliteUpdateWebhook st hook = Except.ok st) ∧
    (∀ (st : List WebhookConfig) (id : String),
      (∀ w ∈ st, w.id ≠ id) →
      sqliteDeleteWebhook st id = Except.ok st) := by
  refine ⟨?_, ?_, fun _ => rfl, fun _ => rfl, ?_, ?_⟩
  · intro st hook now h
    simp [fsUpdateWebhook, h]
  · intro st id h
    simp [fsDeleteWebhook, h]
  · intro st hook h
    unfold sqliteUpdateWebhook
    congr 1
    induction st with
    | nil => rfl
    | cons w t ih =>
      have hw : (w.id == hook.id) = false := by
        simpa using h w (List.mem_cons_self w t)
      simp only [List.map_cons, hw, Bool.false_eq_true, if_false]
      rw [ih (fun x hx => h x (List.mem_cons_of_mem w hx))]
  · intro st id h
    unfold sqliteDeleteWebhook
    congr 1
    induction st with
    | nil => rfl
    | cons w t ih =>
      have hw : (w.id == id) = false := by
        simpa using h w (List.mem_cons_self w t)
      simp only [List.filter_cons, hw, Bool.not_false, if_true]
      rw [ih (fun x hx => h x (List.mem_cons_of_mem w hx))]

/-- Witness for the amended C9: all six parts of
`webhook_absent_id_per_backend` at concrete inputs (empty registries and the
absent id "wh1"). -/
theorem webhook_absent_id_per_backend_witness :
    fsUpdateWebhook [] hookA 1700000005 = Except.error StoreErr.notFound ∧
    fsDeleteWebhook [] ("wh1") = Except.error StoreErr.notFound ∧
    noopUpdateWebhook hookA = Except.error StoreErr.notFound ∧
    noopDeleteWebhook ("wh1") = Except.error StoreErr.notFound ∧
    sqliteUpdateWebhook [] hookA = Except.ok [] ∧
    sqliteDeleteWebhook [] ("wh1") = Except.ok [] :=
  ⟨webhook_absent_id_per_backend.1 [] hookA 1700000005 rfl,
   webhook_absent_id_per_backend.2.1 [] ("wh1") rfl,
   webhook_absent_id_per_backend.2.2.1 hookA,
   webhook_absent_id_per_backend.2.2.2.1 ("wh1"),
   webhook_absent_id_per_backend.2.2.2.2.1 [] hookA (by simp),
   webhook_absent_id_per_backend.2.2.2.2.2 [] ("wh1") (by simp)⟩

/-! ## HMAC-SHA256 signing (Dispatcher.send / Dispatcher.generateSignature) -/

/-- Truncation to a 32-bit word. -/
def w32 (n : Nat) : Nat := n % 4294967296

/-- Right rotation of a 32-bit word. -/
def rotr32 (x n : Nat) : Nat := w32 ((x >>> n) ||| (x <<< (32 - n)))

/-- SHA-256 round constants. -/
def shaK : List Nat :=
  [1116352408, 1899447441, 3049323471, 3921009573,
   961987163, 1508970993, 2453635748, 2870763221,
   3624381080, 310598401, 607225278, 1426881987,
   1925078388, 2162078206, 2614888103, 3248222580,
   3835390401, 4022224774, 264347078, 604807628,
   770255983, 1249150122, 1555081692, 1996064986,
   2554220882, 2821834349, 2952996808, 3210313671,
   3336571891, 3584528711, 113926993, 338241895,
   666307205, 773529912, 1294757372, 1396182291,
   1695183700, 1986661051, 2177026350, 2456956037,
   2730485921, 2820302411, 3259730800, 3345764771,
   3516065817, 3600352804, 4094571909, 275423344,
   430227734, 506948616, 659060556, 883997877,
   958139571, 1322822218, 1537002063, 1747873779,
   1955562222, 2024104815, 2227730452, 2361852424,
   2428436474, 2756734187, 3204031479, 3329325298]

/-- SHA-256 initial hash state. -/
def shaH0 : List Nat :=
  [1779033703, 3144134277, 1013904242, 2773480762,
   1359893119, 2600822924, 528734635, 1541459225]

/-- List indexing with zero default. -/
def nthW (l : List Nat) (i : Nat) : Nat := l.getD i 0

/-- SHA-256 small sigma 0. -/
def lsig0 (x : Nat) : Nat := rotr32 x 7 ^^^ rotr32 x 18 ^^^ (x >>> 3)

/-- SHA-256 small sigma 1. -/
def lsig1 (x : Nat) : Nat := rotr32 x 17 ^^^ rotr32 x 19 ^^^ (x >>> 10)

/-- SHA-256 big sigma 0. -/
def bsig0 (x : Nat) : Nat := rotr32 x 2 ^^^ rotr32 x 13 ^^^ rotr32 x 22

/-- SHA-256 big sigma 1. -/
def bsig1 (x : Nat) : Nat := rotr32 x 6 ^^^ rotr32 x 11 ^^^ rotr32 x 25

/-- SHA-256 choice function (bitwise not as xor with the 32-bit mask). -/
def chF (x y z : Nat) : Nat := (x &&& y) ^^^ ((x ^^^ 0xffffffff) &&& z)

/-- SHA-256 majority function. -/
def majF (x y z : Nat) : Nat := (x &&& y) ^^^ (x &&& z) ^^^ (y &&& z)

/-- Group big-endian bytes into 32-bit words. -/
def bytesToWords : List Nat → List Nat
  | b0 :: b1 :: b2 :: b3 :: rest =>
    (((b0 * 256 + b1) * 256 + b2) * 256 + b3) :: bytesToWords rest
  | _ => []

/-- Big-endian bytes of a 32-bit word. -/
def be32 (n : Nat) : List Nat :=
  [(n >>> 24) % 256, (n >>> 16) % 256, (n >>> 8) % 256, n % 256]

/-- Big-endian bytes of a 64-bit length. -/
def be64 (n : Nat) : List Nat :=
  [(n >>> 56) % 256, (n >>> 48) % 256, (n >>> 40) % 256, (n >>> 32) % 256,
   (n >>> 24) % 256, (n >>> 16) % 256, (n >>> 8) % 256, n % 256]

/-- Extend the 16-word schedule to 64 words (`fuel` additional words). -/
def extendSchedule (w : List Nat) : Nat → List Nat
  | 0 => w
  | fuel + 1 =>
    let i := w.length
    let nw := w32 (lsig1 (nthW w (i - 2)) + nthW w (i - 7) +
      lsig0 (nthW w (i - 15)) + nthW w (i - 16))
    extendSchedule (w ++ [nw]) fuel

/-- The SHA-256 compression rounds: `st` is [a,b,c,d,e,f,g,h]. -/
def sha256Rounds (w : List Nat) (i : Nat) (st : List Nat) : Nat → List Nat
  | 0 => st
  | fuel + 1 =>
    match st with
    | [a, b, c, d, e, f0, g, h] =>
      let t1 := w32 (h + bsig1 e + chF e f0 g + nthW shaK i + nthW w i)
      let t2 := w32 (bsig0 a + majF a b c)
      sha256Rounds w (i + 1) [w32 (t1 + t2), a, b, c, w32 (d + t1), e, f0, g] fuel
    | _ => st

/-- Compress one 64-byte chunk into the hash state. -/
def sha256Compress (hs chunk : List Nat) : List Nat :=
  let w := extendSchedule (bytesToWords chunk) 48
  let st := sha256Rounds w 0 hs 64
  List.zipWith (fun x y => w32 (x + y)) hs st

/-- SHA-256 padding: 0x80, zeros to 56 mod 64, 64-bit big-endian bit length. -/
def sha256Pad (msg : List Nat) : List Nat :=
  msg ++ 0x80 :: List.replicate ((119 - msg.length % 64) % 64) 0 ++
    be64 (8 * msg.length)

/-- Fold the compression over the chunks of the padded message. -/
def sha256Chunks (hs data : List Nat) : Nat → List Nat
  | 0 => hs
  | fuel + 1 => sha256Chunks (sha256Compress hs (data.take 64)) (data.drop 64) fuel

/-- SHA-256 of a byte list, as 32 bytes. -/
def sha256 (msg : List Nat) : List Nat :=
  let padded := sha256Pad msg
  (sha256Chunks shaH0 padded (padded.length / 64)).flatMap be32

/-- HMAC-SHA256 (RFC 2104, block size 64) of a message under a key. -/
def hmacSha256 (key msg : List Nat) : List Nat :=
  let k0 := if 64 < key.length then sha256 key else key
  let k := k0 ++ List.replicate (64 - k0.length) 0
  sha256 ((k.map (fun b => b ^^^ 0x5c)) ++
    sha256 ((k.map (fun b => b ^^^ 0x36)) ++ msg))

/-- Lowercase hex digit. -/
def hexDigitCh (n : Nat) : Char :=
  Char.ofNat (if n < 10 then 48 + n else 87 + n)

/-- Lowercase hex encoding of a byte list (`hex.EncodeToString`). -/
def hexEncode (bs : List Nat) : String :=
  String.mk (bs.flatMap (fun b => [hexDigitCh (b / 16), hexDigitCh (b % 16)]))

/-- UTF-8 bytes of a code point. -/
def utf8Bytes (c : Nat) : List Nat :=
  if c < 128 then [c]
  else if c < 2048 then [192 ||| (c >>> 6), 128 ||| (c &&& 63)]
  else if c < 65536 then
    [224 ||| (c >>> 12), 128 ||| ((c >>> 6) &&& 63), 128 ||| (c &&& 63)]
  else
    [240 ||| (c >>> 18), 128 ||| ((c >>> 12) &&& 63),
     128 ||| ((c >>> 6) &&& 63), 128 ||| (c &&& 63)]

/-- UTF-8 bytes of a string. -/
def strBytes (s : String) : List Nat :=
  (s.toList.map (fun c => utf8Bytes c.toNat)).flatten

/-- FIPS 180 test vector, validating the SHA-256 embedding. -/
theorem sha256_abc_vector :
    hexEncode (sha256 (strBytes ("abc"))) =
      "ba7816bf8f01cfea414140de5dae2223b00361a396177a9cb410ff61f20015ad" := by
  set_option maxRecDepth 100000 in decide

/-- RFC 4231 test case 2, validating the HMAC-SHA256 embedding. -/
theorem hmacSha256_rfc4231_vector :
    hexEncode (hmacSha256 (strBytes ("Jefe"))
        (strBytes ("what do ya want for nothing?"))) =
      "5bdcc146bf60754e6a042426089575c75a003f089d2739839dec58b964ec3843" := by
  set_option maxRecDepth 400000 in decide

/-- A webhook event payload, mirroring the `Event` struct (SendGrid format). -/
structure Event where
  eventId : String
  type : String
  timestamp : Int
  messageId : String
  email : String
  fromAddr : String
  subject : String
  status : String
  reason : String
deriving DecidableEq, Repr

/-- Construction of the event in `Dispatcher.send`: the event id is
`<unix-nanos>-<messageId>` and both the type and the status tag carry the
dispatched status. -/
def buildEvent (nowNanos nowUnix : Int)
    (msgID email fromAddr subject status reason : String) : Event :=
  { eventId := toString nowNanos ++ "-" ++ msgID
    type := status
    timestamp := nowUnix
    messageId := msgID
    email := email
    fromAddr := fromAddr
    subject := subject
    status := status
    reason := reason }

/-- Go JSON escaping of one character (with the HTML-escape default). -/
def jsonEscapeChar (c : Char) : List Char :=
  if c = '"' then ['\\', '"']
  else if c = '\\' then ['\\', '\\']
  else if c = '\n' then ['\\', 'n']
  else if c = '\r' then ['\\', 'r']
  else if c = '\t' then ['\\', 't']
  else if c.toNat < 32 || c = '<' || c = '>' || c = '&' then
    ['\\', 'u', '0', '0', hexDigitCh (c.toNat / 16), hexDigitCh (c.toNat % 16)]
  else if c.toNat = 8232 then ['\\', 'u', '2', '0', '2', '8']
  else if c.toNat = 8233 then ['\\', 'u', '2', '0', '2', '9']
  else [c]

/-- Quoted, escaped JSON string. -/
def jsonQuote (s : String) : String :=
  String.mk ('"' :: (s.toList.map jsonEscapeChar).flatten ++ ['"'])

/-- Serialization of the event by `json.Marshal`: fields in struct order,
with the omitempty fields (from, subject, status, reason) dropped when
empty. These are exactly the bytes POSTed as the request body. -/
def serializeEvent (ev : Event) : List Nat :=
  strBytes (
    "\x7b\"event_id\":" ++ jsonQuote ev.eventId ++
    ",\"event\":" ++ jsonQuote ev.type ++
    ",\"timestamp\":" ++ toString ev.timestamp ++
    ",\"sg_message_id\":" ++ jsonQuote ev.messageId ++
    ",\"email\":" ++ jsonQuote ev.email ++
    (if ev.fromAddr = "" then "" else ",\"from\":" ++ jsonQuote ev.fromAddr) ++
    (if ev.subject = "" then "" else ",\"subject\":" ++ jsonQuote ev.subject) ++
    (if ev.status = "" then "" else ",\"status\":" ++ jsonQuote ev.status) ++
    (if ev.reason = "" then "" else ",\"reason\":" ++ jsonQuote ev.reason) ++
    "\x7d")

/-- One outbound webhook HTTP request as `Dispatcher.send` builds it. -/
structure HttpRequest where
  url : String
  body : List Nat
  contentType : String
  userAgent : String
  signature : Option String
deriving DecidableEq, Repr

/-- The `Dispatcher.generateSignature` helper: hex-encoded HMAC-SHA256 of the
payload bytes keyed by the secret. -/
def generateSignature (payload : List Nat) (secret : String) : String :=
  hexEncode (hmacSha256 (strBytes secret) payload)

/-- Request construction in `Dispatcher.send`: the serialized event is the
body; the signature header is set only when the config's secret is
non-empty, to the signature of those same payload bytes. -/
def dispatcherSend (hook : WebhookConfig) (ev : Event) : HttpRequest :=
  let payload := serializeEvent ev
  { url := hook.url
    body := payload
    contentType := "application/json"
    userAgent := "mockgrid/1.0"
    signature :=
      if hook.secret ≠ "" then some (generateSignature payload hook.secret)
      else none }

/-- C6: for every delivery attempt, a signature header is attached if and
only if the config's secret is non-empty, and when attached its value is the
lowercase-hex HMAC-SHA256 digest, keyed by that secret, of exactly the
serialized JSON payload bytes sent as the request body. -/
theorem dispatcherSend_signature_semantics (hook : WebhookConfig) (ev : Event) :
    ((dispatcherSend hook ev).signature.isSome ↔ hook.secret ≠ "") ∧
    (dispatcherSend hook ev).body = serializeEvent ev ∧
    (dispatcherSend hook ev).signature =
      (if hook.secret ≠ "" then
        some (hexEncode (hmacSha256 (strBytes hook.secret)
          ((dispatcherSend hook ev).body)))
       else none) := by
  unfold dispatcherSend generateSignature
  by_cases h : hook.secret = "" <;> simp [h]
